import Mathlib

/-!
Verification of the `aumai_jaldrishti` core (files `models.py`, `core.py`)
against its natural-language specification.

Conventions of the embedding:
* Python `float` values are modelled as `ℚ` (all the arithmetic the core
  performs — comparisons, sums, division guarded against zero denominators,
  decimal rounding — is exact on the inputs the claims quantify over).
* Python `int` is modelled as `ℤ` (or `ℕ` for the alert counter, which is
  only ever incremented starting from 0).
* Python's `round(x, n)` (banker's rounding, half to even) is modelled by
  `pyRound`.
* Stateful classes are modelled by explicit state passing: a registry is its
  backing collection, a method taking `self` becomes a function taking the
  state (and returning the new state where the method mutates it).
* Numeric rendering inside human-readable message strings abstracts Python's
  float formatting by `toString` on `ℚ`; no claim depends on message text.
-/

set_option maxHeartbeats 1000000
set_option linter.unusedVariables false

namespace Jaldrishti

/-- Python `round(x * 10^n)` core: round half to even on `ℚ`, returning `ℤ`. -/
def pyRoundInt (q : ℚ) : ℤ :=
  let f := ⌊q⌋
  let frac := q - f
  if frac < 1/2 then f
  else if frac > 1/2 then f + 1
  else if f % 2 = 0 then f else f + 1

/-- Python `round(x, n)` on `ℚ` (banker's rounding to `n` decimal places). -/
def pyRound (q : ℚ) (n : ℕ) : ℚ :=
  (pyRoundInt (q * 10 ^ n) : ℚ) / 10 ^ n

/-- The `WaterQualityGrade` enum from `models.py`. -/
inductive WaterQualityGrade
  | safe
  | acceptable
  | contaminated
  | hazardous
  deriving DecidableEq, Repr

/-- The `SeasonType` enum from `models.py`. -/
inductive SeasonType
  | pre_monsoon
  | monsoon
  | post_monsoon
  | winter
  deriving DecidableEq, Repr

/-- The Python string value of a `SeasonType` member (`season.value`). -/
def SeasonType.value : SeasonType → String
  | .pre_monsoon => "pre_monsoon"
  | .monsoon => "monsoon"
  | .post_monsoon => "post_monsoon"
  | .winter => "winter"

/-- The `AlertLevel` enum from `models.py`. -/
inductive AlertLevel
  | info
  | warning
  | critical
  | emergency
  deriving DecidableEq, Repr

/-- The `WaterQualityReport` model from `models.py`. -/
structure WaterQualityReport where
  report_id : String
  source_id : String
  test_date : String
  ph : ℚ
  tds_ppm : ℚ
  turbidity_ntu : ℚ
  chloride_ppm : ℚ := 0
  fluoride_ppm : ℚ := 0
  arsenic_ppb : ℚ := 0
  iron_ppm : ℚ := 0
  nitrate_ppm : ℚ := 0
  coliform_present : Bool := false
  grade : WaterQualityGrade := .safe
  deriving DecidableEq, Repr

/-! `_BIS_LIMITS` table from `core.py` (BIS 10500:2012 drinking water
standards). -/

def BIS_ph_min : ℚ := 6.5
def BIS_ph_max : ℚ := 8.5
def BIS_tds_acceptable : ℚ := 500
def BIS_tds_permissible : ℚ := 2000
def BIS_turbidity_acceptable : ℚ := 1
def BIS_turbidity_permissible : ℚ := 5
def BIS_chloride_acceptable : ℚ := 250
def BIS_chloride_permissible : ℚ := 1000
def BIS_fluoride_acceptable : ℚ := 1.0
def BIS_fluoride_permissible : ℚ := 1.5
def BIS_arsenic_max_ppb : ℚ := 10
def BIS_iron_acceptable : ℚ := 0.3
def BIS_iron_permissible : ℚ := 1.0
def BIS_nitrate_max : ℚ := 45

/-- The `JJM_LPCD_STANDARD` constant from `core.py`. -/
def JJM_LPCD_STANDARD : ℤ := 55

/-- Final value of the `hazardous` accumulator in
`WaterQualityAnalyzer.grade_report`: the disjunction of every condition whose
`if` branch sets it (pH outside [5, 9.5], TDS above permissible, fluoride
above permissible, arsenic above its maximum, nitrate above its maximum,
coliform present). -/
def hazardousFlag (r : WaterQualityReport) : Bool :=
  decide (r.ph < 5 ∨ r.ph > 9.5)
  || decide (r.tds_ppm > BIS_tds_permissible)
  || decide (r.fluoride_ppm > BIS_fluoride_permissible)
  || decide (r.arsenic_ppb > BIS_arsenic_max_ppb)
  || decide (r.nitrate_ppm > BIS_nitrate_max)
  || r.coliform_present

/-- Final value of the `contaminated` accumulator in
`WaterQualityAnalyzer.grade_report`. Each `elif` condition carries the
negation of the matching `if` condition, reflecting the sequential code. -/
def contaminatedFlag (r : WaterQualityReport) : Bool :=
  (!decide (r.ph < 5 ∨ r.ph > 9.5) && decide (r.ph < BIS_ph_min ∨ r.ph > BIS_ph_max))
  || (!decide (r.tds_ppm > BIS_tds_permissible) && decide (r.tds_ppm > BIS_tds_acceptable))
  || decide (r.turbidity_ntu > BIS_turbidity_permissible)
  || (!decide (r.fluoride_ppm > BIS_fluoride_permissible)
      && decide (r.fluoride_ppm > BIS_fluoride_acceptable))
  || decide (r.iron_ppm > BIS_iron_permissible)

/-- The `WaterQualityAnalyzer.grade_report` from `core.py`. -/
def grade_report (r : WaterQualityReport) : WaterQualityGrade :=
  if hazardousFlag r then .hazardous
  else if contaminatedFlag r then .contaminated
  else if r.tds_ppm ≤ BIS_tds_acceptable ∧ r.turbidity_ntu ≤ BIS_turbidity_acceptable
      ∧ r.fluoride_ppm ≤ BIS_fluoride_acceptable ∧ r.iron_ppm ≤ BIS_iron_acceptable then .safe
  else .acceptable

/-- The `WaterQualityAnalyzer.identify_contaminants` from `core.py`: one message
per exceeded acceptable-tier bound, in the fixed source order. -/
def identify_contaminants (report : WaterQualityReport) : List String :=
  (if report.ph < BIS_ph_min then
    ["pH too low: " ++ toString report.ph ++ " (min 6.5)"] else [])
  ++ (if report.ph > BIS_ph_max then
    ["pH too high: " ++ toString report.ph ++ " (max 8.5)"] else [])
  ++ (if report.tds_ppm > BIS_tds_acceptable then
    ["TDS: " ++ toString report.tds_ppm ++ " ppm (limit 500)"] else [])
  ++ (if report.turbidity_ntu > BIS_turbidity_acceptable then
    ["Turbidity: " ++ toString report.turbidity_ntu ++ " NTU (limit 1)"] else [])
  ++ (if report.fluoride_ppm > BIS_fluoride_acceptable then
    ["Fluoride: " ++ toString report.fluoride_ppm ++ " ppm (limit 1.0)"] else [])
  ++ (if report.arsenic_ppb > BIS_arsenic_max_ppb then
    ["Arsenic: " ++ toString report.arsenic_ppb ++ " ppb (limit 10)"] else [])
  ++ (if report.iron_ppm > BIS_iron_acceptable then
    ["Iron: " ++ toString report.iron_ppm ++ " ppm (limit 0.3)"] else [])
  ++ (if report.nitrate_ppm > BIS_nitrate_max then
    ["Nitrate: " ++ toString report.nitrate_ppm ++ " ppm (limit 45)"] else [])
  ++ (if report.chloride_ppm > BIS_chloride_acceptable then
    ["Chloride: " ++ toString report.chloride_ppm ++ " ppm (limit 250)"] else [])
  ++ (if report.coliform_present then ["Coliform bacteria detected"] else [])

/-- The `WaterSourceType` enum from `models.py`. -/
inductive WaterSourceType
  | borewell
  | handpump
  | open_well
  | river
  | pond
  | spring
  | reservoir
  | rainwater
  | pipeline
  deriving DecidableEq, Repr

/-- The `WaterSource` model from `models.py`. -/
structure WaterSource where
  source_id : String
  panchayat_id : String
  name : String
  source_type : WaterSourceType
  latitude : ℚ
  longitude : ℚ
  capacity_liters_per_day : ℚ
  current_yield_lpd : ℚ
  depth_meters : ℚ := 0
  is_functional : Bool := true
  last_tested_date : String := ""
  deriving DecidableEq, Repr

/-- The `WaterSource.yield_pct` property from `models.py`: 0 when capacity is 0,
else current/capacity × 100 rounded to one decimal. -/
def WaterSource.yield_pct (s : WaterSource) : ℚ :=
  if s.capacity_liters_per_day = 0 then 0
  else pyRound (s.current_yield_lpd / s.capacity_liters_per_day * 100) 1

namespace SourceManager

/- `SourceManager` state: the values of its `_sources` dict, in insertion
order of their keys (Python dicts preserve that order). -/

/-- The `SourceManager.register`: Python dict assignment keyed on `source_id` —
an existing key keeps its position and receives the new value, a new key is
appended at the end. -/
def register (m : List WaterSource) (source : WaterSource) : List WaterSource :=
  if m.any (fun t => t.source_id == source.source_id) then
    m.map (fun t => if t.source_id == source.source_id then source else t)
  else m ++ [source]

/-- The `SourceManager.by_panchayat` from `core.py`. -/
def by_panchayat (m : List WaterSource) (panchayat_id : String) : List WaterSource :=
  m.filter (fun s => s.panchayat_id == panchayat_id)

/-- The `SourceManager.functional_sources` from `core.py`. -/
def functional_sources (m : List WaterSource) (panchayat_id : String) : List WaterSource :=
  (by_panchayat m panchayat_id).filter (fun s => s.is_functional)

/-- The `SourceManager.total_supply_lpd` from `core.py`. -/
def total_supply_lpd (m : List WaterSource) (panchayat_id : String) : ℚ :=
  ((functional_sources m panchayat_id).map (fun s => s.current_yield_lpd)).sum

end SourceManager

/-- The `GroundwaterLevel` model from `models.py`. -/
structure GroundwaterLevel where
  panchayat_id : String
  season : SeasonType
  year : ℤ
  depth_meters : ℚ
  previous_year_depth : ℚ := 0
  deriving DecidableEq, Repr

/-- The `GroundwaterLevel.change_meters` property from `models.py`. -/
def GroundwaterLevel.change_meters (g : GroundwaterLevel) : ℚ :=
  pyRound (g.depth_meters - g.previous_year_depth) 2

/-- The `GroundwaterLevel.is_declining` property from `models.py`. -/
def GroundwaterLevel.is_declining (g : GroundwaterLevel) : Bool :=
  decide (g.depth_meters > g.previous_year_depth)

namespace GroundwaterMonitor

/-- The sort key comparison of `GroundwaterMonitor.by_panchayat`: Python's
tuple order on `(r.year, r.season.value)`, as a boolean `≤`. -/
def keyLe (r₁ r₂ : GroundwaterLevel) : Bool :=
  decide (r₁.year < r₂.year)
  || (decide (r₁.year = r₂.year) && decide (r₁.season.value ≤ r₂.season.value))

/-- The `GroundwaterMonitor.by_panchayat` from `core.py`: matching records,
sorted (stably) by `(year, season.value)`. -/
def by_panchayat (m : List GroundwaterLevel) (panchayat_id : String) : List GroundwaterLevel :=
  (m.filter (fun r => r.panchayat_id == panchayat_id)).mergeSort keyLe

/-- The `GroundwaterMonitor.latest` from `core.py`. -/
def latest (m : List GroundwaterLevel) (panchayat_id : String) : Option GroundwaterLevel :=
  (by_panchayat m panchayat_id).getLast?

/-- Python slice `l[-years:]` for an arbitrary integer `years`. -/
def sliceFromNegIndex (l : List GroundwaterLevel) (years : ℤ) : List GroundwaterLevel :=
  if 0 < years then l.drop (l.length - years.toNat)
  else l.drop (-years).toNat

/-- The sort key comparison of `declining_trend` (`key=lambda r: r.year`). -/
def yearLe (r₁ r₂ : GroundwaterLevel) : Bool :=
  decide (r₁.year ≤ r₂.year)

/-- The `all(...)` comprehension of `declining_trend`: every entry's depth is
strictly greater than its predecessor's. -/
def strictlyDeepening : List GroundwaterLevel → Bool
  | [] => true
  | [_] => true
  | a :: b :: rest => decide (a.depth_meters < b.depth_meters) && strictlyDeepening (b :: rest)

/-- The `GroundwaterMonitor.declining_trend` from `core.py`: restrict to the
panchayat's pre-monsoon records, sort by year, slice `records[-years:]` when
`len(records) >= years`, answer `false` below 2 entries, else strict
consecutive deepening. -/
def declining_trend (m : List GroundwaterLevel) (panchayat_id : String) (years : ℤ) : Bool :=
  let records := (m.filter (fun r =>
    r.panchayat_id == panchayat_id && decide (r.season = SeasonType.pre_monsoon))).mergeSort yearLe
  let recent := if (records.length : ℤ) ≥ years then sliceFromNegIndex records years else records
  if recent.length < 2 then false
  else strictlyDeepening recent

end GroundwaterMonitor

/-- The `RainfallRecord` model from `models.py`. -/
structure RainfallRecord where
  panchayat_id : String
  month : ℤ
  year : ℤ
  rainfall_mm : ℚ
  normal_mm : ℚ
  deriving DecidableEq, Repr

namespace RainfallAnalyzer

/-- The `RainfallAnalyzer.annual_total` from `core.py`. -/
def annual_total (m : List RainfallRecord) (panchayat_id : String) (year : ℤ) : ℚ :=
  ((m.filter (fun r => r.panchayat_id == panchayat_id && decide (r.year = year))).map
    (fun r => r.rainfall_mm)).sum

/-- The `RainfallAnalyzer.annual_normal` from `core.py`. -/
def annual_normal (m : List RainfallRecord) (panchayat_id : String) (year : ℤ) : ℚ :=
  ((m.filter (fun r => r.panchayat_id == panchayat_id && decide (r.year = year))).map
    (fun r => r.normal_mm)).sum

/-- The `RainfallAnalyzer.annual_deviation_pct` from `core.py`: 0 when the annual
normal is 0, else percentage deviation rounded to one decimal. -/
def annual_deviation_pct (m : List RainfallRecord) (panchayat_id : String) (year : ℤ) : ℚ :=
  let normal := annual_normal m panchayat_id year
  if normal = 0 then 0
  else pyRound ((annual_total m panchayat_id year - normal) / normal * 100) 1

/-- The `RainfallAnalyzer.drought_risk` from `core.py`. -/
def drought_risk (m : List RainfallRecord) (panchayat_id : String) (year : ℤ) : String :=
  let dev := annual_deviation_pct m panchayat_id year
  if dev ≤ -60 then "severe_drought"
  else if dev ≤ -40 then "moderate_drought"
  else if dev ≤ -20 then "mild_drought"
  else "normal"

/-- The `RainfallAnalyzer.flood_risk` from `core.py`. -/
def flood_risk (m : List RainfallRecord) (panchayat_id : String) (year : ℤ) : String :=
  let dev := annual_deviation_pct m panchayat_id year
  if dev ≥ 60 then "high_flood_risk"
  else if dev ≥ 30 then "moderate_flood_risk"
  else "normal"

end RainfallAnalyzer

/-- The dict returned by `JJMTracker.lpcd_check`. -/
structure LpcdCheck where
  actual_lpcd : ℚ
  required_lpcd : ℚ
  gap_lpd : ℚ
  deriving DecidableEq, Repr

/-- The `JJMTracker.lpcd_check` from `core.py` (it reads no tracker state; the
`panchayat_id` argument is kept for fidelity). -/
def lpcd_check (panchayat_id : String) (population : ℤ) (total_supply_lpd : ℚ) : LpcdCheck :=
  if population = 0 then
    { actual_lpcd := 0, required_lpcd := (JJM_LPCD_STANDARD : ℚ), gap_lpd := 0 }
  else
    let actual_lpcd := total_supply_lpd / (population : ℚ)
    let required_lpd := (population : ℚ) * (JJM_LPCD_STANDARD : ℚ)
    let gap_lpd := max 0 (required_lpd - total_supply_lpd)
    { actual_lpcd := pyRound actual_lpcd 1,
      required_lpcd := (JJM_LPCD_STANDARD : ℚ),
      gap_lpd := pyRound gap_lpd 0 }

/-- The `WaterAlert` model from `models.py`. -/
structure WaterAlert where
  alert_id : String
  panchayat_id : String
  level : AlertLevel
  category : String
  message : String
  source_id : String := ""
  date : String := ""
  is_active : Bool := true
  deriving DecidableEq, Repr

/-- Decimal digit character for a digit (`'9'` for any argument above 9;
only ever applied below 10). -/
def digitChar : ℕ → Char
  | 0 => '0'
  | 1 => '1'
  | 2 => '2'
  | 3 => '3'
  | 4 => '4'
  | 5 => '5'
  | 6 => '6'
  | 7 => '7'
  | 8 => '8'
  | _ => '9'

/-- Decimal digits of `n`, most significant first (Python `"%d" % n`). -/
def natDecimal (n : ℕ) : List Char :=
  if n < 10 then [digitChar n]
  else natDecimal (n / 10) ++ [digitChar (n % 10)]
termination_by n
decreasing_by exact Nat.div_lt_self (by omega) (by omega)

/-- Python `f"ALERT-{n:04d}"`: the decimal form of `n`, zero-padded on the
left to width 4, after the fixed prefix. -/
def fmtId (n : ℕ) : String :=
  "ALERT-" ++ String.mk (List.replicate (4 - (natDecimal n).length) '0' ++ natDecimal n)

/-- Numeric value of a decimal digit string (most significant first). -/
def digitsVal (l : List Char) : ℕ :=
  l.foldl (fun a c => 10 * a + (c.toNat - 48)) 0

/-- The sequence number encoded in an alert identifier: the value of the
digits after the 6-character prefix `"ALERT-"`. -/
def seqNum (a : WaterAlert) : ℕ :=
  digitsVal (a.alert_id.data.drop 6)

namespace AlertEngine

/-- The `AlertEngine._next_id` from `core.py`: increment the instance counter
and format it. The engine state is the counter (`_alert_counter`), starting
at 0 for a fresh instance. -/
def next_id (c : ℕ) : String × ℕ :=
  (fmtId (c + 1), c + 1)

/-- The `AlertEngine.check_quality` from `core.py`: re-derive the grade and emit
one EMERGENCY alert for hazardous, one WARNING alert for contaminated,
nothing otherwise. Takes and returns the id counter. -/
def check_quality (c : ℕ) (report : WaterQualityReport) : List WaterAlert × ℕ :=
  if grade_report report = .hazardous then
    ([{ alert_id := fmtId (c + 1), panchayat_id := "", level := .emergency,
        category := "water_quality",
        message := "HAZARDOUS water quality at source " ++ report.source_id ++ ". Do NOT consume.",
        source_id := report.source_id, date := report.test_date }], c + 1)
  else if grade_report report = .contaminated then
    ([{ alert_id := fmtId (c + 1), panchayat_id := "", level := .warning,
        category := "water_quality",
        message := "Contaminated water at source " ++ report.source_id ++ ". Treatment required.",
        source_id := report.source_id, date := report.test_date }], c + 1)
  else ([], c)

/-- The `AlertEngine.check_groundwater` from `core.py`: a CRITICAL alert above
40 m, else a WARNING above 20 m; independently, a WARNING trend alert when
the record is declining with a change above 2 m. -/
def check_groundwater (c : ℕ) (record : GroundwaterLevel) : List WaterAlert × ℕ :=
  let st :=
    if record.depth_meters > 40 then
      ([{ alert_id := fmtId (c + 1), panchayat_id := record.panchayat_id, level := .critical,
          category := "groundwater",
          message := "Groundwater critically deep: " ++ toString record.depth_meters
            ++ "m. Immediate conservation needed." }], c + 1)
    else if record.depth_meters > 20 then
      ([{ alert_id := fmtId (c + 1), panchayat_id := record.panchayat_id, level := .warning,
          category := "groundwater",
          message := "Groundwater declining: " ++ toString record.depth_meters ++ "m depth." }],
        c + 1)
    else ([], c)
  if record.is_declining && decide (record.change_meters > 2) then
    let trendAlert : WaterAlert :=
      { alert_id := fmtId (st.2 + 1), panchayat_id := record.panchayat_id,
        level := .warning, category := "groundwater_trend",
        message := "Groundwater dropped " ++ toString record.change_meters
          ++ "m from last year." }
    (st.1 ++ [trendAlert], st.2 + 1)
  else st

/-- The `AlertEngine.check_supply` from `core.py`: no alert for population 0;
EMERGENCY below 27 LPCD, WARNING below the 55 LPCD standard, else nothing. -/
def check_supply (c : ℕ) (population : ℤ) (total_supply_lpd : ℚ) : List WaterAlert × ℕ :=
  if population = 0 then ([], c)
  else
    let lpcd := total_supply_lpd / (population : ℚ)
    if lpcd < 27 then
      ([{ alert_id := fmtId (c + 1), panchayat_id := "", level := .emergency,
          category := "supply",
          message := "Severe water scarcity: only " ++ toString lpcd ++ " LPCD (need 55)." }],
        c + 1)
    else if lpcd < (JJM_LPCD_STANDARD : ℚ) then
      ([{ alert_id := fmtId (c + 1), panchayat_id := "", level := .warning,
          category := "supply",
          message := "Water supply below JJM standard: " ++ toString lpcd ++ " LPCD (need 55)." }],
        c + 1)
    else ([], c)

/-- The `AlertEngine.check_rainfall` from `core.py`: CRITICAL drought alert at a
deviation of −40 % or below, CRITICAL flood alert at +60 % or above, nothing
between. -/
def check_rainfall (c : ℕ) (panchayat_id : String) (deviation_pct : ℚ) : List WaterAlert × ℕ :=
  if deviation_pct ≤ -40 then
    ([{ alert_id := fmtId (c + 1), panchayat_id := panchayat_id, level := .critical,
        category := "drought",
        message := "Drought conditions: rainfall " ++ toString deviation_pct
          ++ "% below normal." }], c + 1)
  else if deviation_pct ≥ 60 then
    ([{ alert_id := fmtId (c + 1), panchayat_id := panchayat_id, level := .critical,
        category := "flood",
        message := "Flood risk: rainfall " ++ toString deviation_pct ++ "% above normal." }],
      c + 1)
  else ([], c)

/-- One call to an `AlertEngine` check method. -/
inductive Command
  | quality (report : WaterQualityReport)
  | groundwater (record : GroundwaterLevel)
  | supply (population : ℤ) (total_supply_lpd : ℚ)
  | rainfall (panchayat_id : String) (deviation_pct : ℚ)

/-- Dispatch one check call on the engine state. -/
def runCmd (c : ℕ) : Command → List WaterAlert × ℕ
  | .quality report => check_quality c report
  | .groundwater record => check_groundwater c record
  | .supply population supply => check_supply c population supply
  | .rainfall pid dev => check_rainfall c pid dev

/-- Run a sequence of check calls on one engine instance, collecting every
emitted alert in emission order. -/
def run (c : ℕ) : List Command → List WaterAlert × ℕ
  | [] => ([], c)
  | cmd :: rest =>
    let p := runCmd c cmd
    let q := run p.2 rest
    (p.1 ++ q.1, q.2)

end AlertEngine

/-! ### Helper lemmas for the quality-grading claims -/

lemma hazardousFlag_false_of_bounds (r : WaterQualityReport)
    (h1 : 6.5 ≤ r.ph) (h2 : r.ph ≤ 8.5) (h3 : r.tds_ppm ≤ 500) (h5 : r.fluoride_ppm ≤ 1)
    (h6 : r.arsenic_ppb ≤ 10) (h8 : r.nitrate_ppm ≤ 45) (h9 : r.coliform_present = false) :
    hazardousFlag r = false := by
  have a1 : decide (r.ph < 5 ∨ r.ph > 9.5) = false := by
    simp only [decide_eq_false_iff_not, not_or, not_lt]
    constructor <;> linarith
  have a2 : decide (r.tds_ppm > BIS_tds_permissible) = false := by
    simp only [BIS_tds_permissible, decide_eq_false_iff_not, not_lt]
    linarith
  have a3 : decide (r.fluoride_ppm > BIS_fluoride_permissible) = false := by
    simp only [BIS_fluoride_permissible, decide_eq_false_iff_not, not_lt]
    linarith
  have a4 : decide (r.arsenic_ppb > BIS_arsenic_max_ppb) = false := by
    simp only [BIS_arsenic_max_ppb, decide_eq_false_iff_not, not_lt]
    linarith
  have a5 : decide (r.nitrate_ppm > BIS_nitrate_max) = false := by
    simp only [BIS_nitrate_max, decide_eq_false_iff_not, not_lt]
    linarith
  simp [hazardousFlag, a1, a2, a3, a4, a5, h9]

lemma contaminatedFlag_false_of_bounds (r : WaterQualityReport)
    (h1 : 6.5 ≤ r.ph) (h2 : r.ph ≤ 8.5) (h3 : r.tds_ppm ≤ 500) (h4 : r.turbidity_ntu ≤ 1)
    (h5 : r.fluoride_ppm ≤ 1) (h7 : r.iron_ppm ≤ 0.3) :
    contaminatedFlag r = false := by
  have b1 : decide (r.ph < BIS_ph_min ∨ r.ph > BIS_ph_max) = false := by
    simp only [BIS_ph_min, BIS_ph_max, decide_eq_false_iff_not, not_or, not_lt]
    constructor <;> linarith
  have b2 : decide (r.tds_ppm > BIS_tds_acceptable) = false := by
    simp only [BIS_tds_acceptable, decide_eq_false_iff_not, not_lt]
    linarith
  have b3 : decide (r.turbidity_ntu > BIS_turbidity_permissible) = false := by
    simp only [BIS_turbidity_permissible, decide_eq_false_iff_not, not_lt]
    linarith
  have b4 : decide (r.fluoride_ppm > BIS_fluoride_acceptable) = false := by
    simp only [BIS_fluoride_acceptable, decide_eq_false_iff_not, not_lt]
    linarith
  have b5 : decide (r.iron_ppm > BIS_iron_permissible) = false := by
    simp only [BIS_iron_permissible, decide_eq_false_iff_not, not_lt]
    have : (0.3 : ℚ) ≤ 1.0 := by norm_num
    linarith
  simp [contaminatedFlag, b1, b2, b3, b4, b5]

/-! ### C1 -/

/-- C1: for every `WaterQualityReport` with `coliform_present = true`,
`grade_report` returns `hazardous`, regardless of the values of all other
parameters (pH, TDS, turbidity, chloride, fluoride, arsenic, iron,
nitrate). -/
theorem coliform_present_grades_hazardous (rid sid td : String)
    (ph tds turb chl fl ars fe ni : ℚ) (g : WaterQualityGrade) :
    grade_report ⟨rid, sid, td, ph, tds, turb, chl, fl, ars, fe, ni, true, g⟩
      = .hazardous := by
  simp [grade_report, hazardousFlag]

/-! ### C2 -/

/-- C2: on every report where no per-parameter rule set the hazardous or the
contaminated accumulator, `grade_report` answers `safe` exactly when TDS,
turbidity, fluoride and iron are all at or below their acceptable bounds and
`acceptable` otherwise; and every report with all parameters at or below the
acceptable bounds and no coliform is graded `safe`. -/
theorem no_flag_safe_iff_all_acceptable (r : WaterQualityReport) :
    (hazardousFlag r = false → contaminatedFlag r = false →
      ((grade_report r = .safe ↔
          (r.tds_ppm ≤ 500 ∧ r.turbidity_ntu ≤ 1 ∧ r.fluoride_ppm ≤ 1 ∧ r.iron_ppm ≤ 0.3)) ∧
        (grade_report r = .acceptable ↔
          ¬ (r.tds_ppm ≤ 500 ∧ r.turbidity_ntu ≤ 1 ∧ r.fluoride_ppm ≤ 1 ∧ r.iron_ppm ≤ 0.3)))) ∧
    (6.5 ≤ r.ph → r.ph ≤ 8.5 → r.tds_ppm ≤ 500 → r.turbidity_ntu ≤ 1 → r.chloride_ppm ≤ 250 →
      r.fluoride_ppm ≤ 1 → r.arsenic_ppb ≤ 10 → r.iron_ppm ≤ 0.3 → r.nitrate_ppm ≤ 45 →
      r.coliform_present = false → grade_report r = .safe) := by
  have key : ∀ hh : hazardousFlag r = false, ∀ hc : contaminatedFlag r = false,
      grade_report r =
        (if r.tds_ppm ≤ 500 ∧ r.turbidity_ntu ≤ 1 ∧ r.fluoride_ppm ≤ 1 ∧ r.iron_ppm ≤ 0.3
          then .safe else .acceptable) := by
    intro hh hc
    unfold grade_report
    rw [hh, hc]
    simp [BIS_tds_acceptable, BIS_turbidity_acceptable, BIS_fluoride_acceptable,
      BIS_iron_acceptable, show (1.0 : ℚ) = 1 from by norm_num]
  constructor
  · intro hh hc
    rw [key hh hc]
    constructor
    · split_ifs with h <;> simp [h]
    · split_ifs with h <;> simp [h]
  · intro h1 h2 h3 h4 hch h5 h6 h7 h8 h9
    have hh := hazardousFlag_false_of_bounds r h1 h2 h3 h5 h6 h8 h9
    have hc := contaminatedFlag_false_of_bounds r h1 h2 h3 h4 h5 h7
    rw [key hh hc, if_pos ⟨h3, h4, h5, h7⟩]

/-- C2, witness: a concrete report (the §8 example values) satisfying both
sets of hypotheses of `no_flag_safe_iff_all_acceptable`. -/
theorem no_flag_safe_iff_all_acceptable_witness :
    grade_report ⟨"R1", "S1", "2024-01-01", 7.2, 350, 0.5, 100, 0.5, 1, 0.1, 20, false, .safe⟩
        = .safe ∧
      (grade_report ⟨"R1", "S1", "2024-01-01", 7.2, 350, 0.5, 100, 0.5, 1, 0.1, 20, false, .safe⟩
          = .acceptable ↔ ¬ ((350 : ℚ) ≤ 500 ∧ (0.5 : ℚ) ≤ 1 ∧ (0.5 : ℚ) ≤ 1 ∧
            (0.1 : ℚ) ≤ 0.3)) := by
  have h := no_flag_safe_iff_all_acceptable
    ⟨"R1", "S1", "2024-01-01", 7.2, 350, 0.5, 100, 0.5, 1, 0.1, 20, false, .safe⟩
  have hh := hazardousFlag_false_of_bounds
    ⟨"R1", "S1", "2024-01-01", 7.2, 350, 0.5, 100, 0.5, 1, 0.1, 20, false, .safe⟩
    (by norm_num) (by norm_num) (by norm_num) (by norm_num) (by norm_num) (by norm_num) rfl
  have hc := contaminatedFlag_false_of_bounds
    ⟨"R1", "S1", "2024-01-01", 7.2, 350, 0.5, 100, 0.5, 1, 0.1, 20, false, .safe⟩
    (by norm_num) (by norm_num) (by norm_num) (by norm_num) (by norm_num) (by norm_num)
  refine ⟨?_, (h.1 hh hc).2⟩
  exact h.2 (by norm_num) (by norm_num) (by norm_num) (by norm_num) (by norm_num)
    (by norm_num) (by norm_num) (by norm_num) (by norm_num) rfl

/-! ### C10 -/

/-- C10: every report whose chloride exceeds 250 while every other parameter
is within its acceptable bound (coliform absent) is graded `safe`, yet
`identify_contaminants` is nonempty (it reports the chloride issue): a safe
grade does not imply an empty contaminant list. -/
theorem safe_grade_with_nonempty_contaminants (r : WaterQualityReport)
    (hch : 250 < r.chloride_ppm)
    (h1 : 6.5 ≤ r.ph) (h2 : r.ph ≤ 8.5) (h3 : r.tds_ppm ≤ 500) (h4 : r.turbidity_ntu ≤ 1)
    (h5 : r.fluoride_ppm ≤ 1) (h6 : r.arsenic_ppb ≤ 10) (h7 : r.iron_ppm ≤ 0.3)
    (h8 : r.nitrate_ppm ≤ 45) (h9 : r.coliform_present = false) :
    grade_report r = .safe ∧
      identify_contaminants r
        = ["Chloride: " ++ toString r.chloride_ppm ++ " ppm (limit 250)"] := by
  have hh := hazardousFlag_false_of_bounds r h1 h2 h3 h5 h6 h8 h9
  have hc := contaminatedFlag_false_of_bounds r h1 h2 h3 h4 h5 h7
  constructor
  · unfold grade_report
    rw [hh, hc]
    simp only [Bool.false_eq_true, if_false]
    rw [if_pos]
    refine ⟨?_, ?_, ?_, ?_⟩ <;>
      simp only [BIS_tds_acceptable, BIS_turbidity_acceptable, BIS_fluoride_acceptable,
        BIS_iron_acceptable] <;> linarith
  · have nph1 : ¬ (r.ph < BIS_ph_min) := by rw [BIS_ph_min]; push_neg; linarith
    have nph2 : ¬ (r.ph > BIS_ph_max) := by rw [BIS_ph_max]; push_neg; linarith
    have ntds : ¬ (r.tds_ppm > BIS_tds_acceptable) := by
      rw [BIS_tds_acceptable]; push_neg; linarith
    have nturb : ¬ (r.turbidity_ntu > BIS_turbidity_acceptable) := by
      rw [BIS_turbidity_acceptable]; push_neg; linarith
    have nfl : ¬ (r.fluoride_ppm > BIS_fluoride_acceptable) := by
      rw [BIS_fluoride_acceptable]; push_neg; linarith
    have nars : ¬ (r.arsenic_ppb > BIS_arsenic_max_ppb) := by
      rw [BIS_arsenic_max_ppb]; push_neg; linarith
    have nfe : ¬ (r.iron_ppm > BIS_iron_acceptable) := by
      rw [BIS_iron_acceptable]; push_neg; linarith
    have nni : ¬ (r.nitrate_ppm > BIS_nitrate_max) := by
      rw [BIS_nitrate_max]; push_neg; linarith
    have ych : r.chloride_ppm > BIS_chloride_acceptable := by
      rw [BIS_chloride_acceptable]; linarith
    simp [identify_contaminants, nph1, nph2, ntds, nturb, nfl, nars, nfe, nni, ych, h9]

/-- C10, witness: a concrete safe-graded report whose contaminant list is the
single chloride issue. -/
theorem safe_grade_with_nonempty_contaminants_witness :
    grade_report ⟨"R2", "S2", "2024-01-01", 7, 300, 0.5, 400, 0.5, 2, 0.2, 10, false, .safe⟩
        = .safe ∧
      identify_contaminants
          ⟨"R2", "S2", "2024-01-01", 7, 300, 0.5, 400, 0.5, 2, 0.2, 10, false, .safe⟩
        = ["Chloride: " ++ toString (400 : ℚ) ++ " ppm (limit 250)"] :=
  safe_grade_with_nonempty_contaminants
    ⟨"R2", "S2", "2024-01-01", 7, 300, 0.5, 400, 0.5, 2, 0.2, 10, false, .safe⟩
    (by norm_num) (by norm_num) (by norm_num) (by norm_num) (by norm_num) (by norm_num)
    (by norm_num) (by norm_num) (by norm_num) rfl

/-! ### C6 -/

/-- C6: every possibly-zero division in the core is guarded and yields 0:
`yield_pct` is 0 at zero capacity, `lpcd_check` at population 0 returns
actual 0, required 55 and gap 0, and `annual_deviation_pct` is 0 when the
annual normal sum is 0. In this embedding every operation is a total
function, so none of them can raise a division error. -/
theorem zero_denominators_are_guarded :
    (∀ s : WaterSource, s.capacity_liters_per_day = 0 → s.yield_pct = 0) ∧
    (∀ (pid : String) (supply : ℚ),
      lpcd_check pid 0 supply = { actual_lpcd := 0, required_lpcd := 55, gap_lpd := 0 }) ∧
    (∀ (m : List RainfallRecord) (pid : String) (year : ℤ),
      RainfallAnalyzer.annual_normal m pid year = 0 →
        RainfallAnalyzer.annual_deviation_pct m pid year = 0) := by
  refine ⟨?_, ?_, ?_⟩
  · intro s h
    simp [WaterSource.yield_pct, h]
  · intro pid supply
    simp [lpcd_check, JJM_LPCD_STANDARD]
  · intro m pid y h
    simp [RainfallAnalyzer.annual_deviation_pct, h]

/-- C6, witness: the guards evaluated at a zero-capacity source, a
zero-population check and an empty rainfall series. -/
theorem zero_denominators_are_guarded_witness :
    WaterSource.yield_pct ⟨"S0", "P0", "dry well", .open_well, 0, 0, 0, 5, 0, true, ""⟩ = 0 ∧
    lpcd_check "P0" 0 1000 = { actual_lpcd := 0, required_lpcd := 55, gap_lpd := 0 } ∧
    RainfallAnalyzer.annual_deviation_pct [] "P0" 2024 = 0 :=
  ⟨zero_denominators_are_guarded.1 ⟨"S0", "P0", "dry well", .open_well, 0, 0, 0, 5, 0, true, ""⟩
      rfl,
    zero_denominators_are_guarded.2.1 "P0" 1000,
    zero_denominators_are_guarded.2.2 [] "P0" 2024 rfl⟩

/-! ### C5 -/

/-- A functional registered source (for the C5 counterexample). -/
def srcFunctional : WaterSource :=
  { source_id := "S1", panchayat_id := "P1", name := "well", source_type := .borewell,
    latitude := 0, longitude := 0, capacity_liters_per_day := 1000, current_yield_lpd := 100 }

/-- A non-functional source with the same id (for the C5 counterexample). -/
def srcNonFunctional : WaterSource :=
  { srcFunctional with is_functional := false, current_yield_lpd := 50 }

/-- C5 fails as literally stated: registering a non-functional source with
positive yield DOES change the panchayat total when it overwrites an
already-registered functional source with the same `source_id` (dict
last-write-wins). Here the total drops from 100 to 0. -/
theorem register_nonfunctional_can_change_total :
    srcNonFunctional.is_functional = false ∧ 0 < srcNonFunctional.current_yield_lpd ∧
    SourceManager.total_supply_lpd
        (SourceManager.register (SourceManager.register [] srcFunctional) srcNonFunctional) "P1"
      ≠ SourceManager.total_supply_lpd (SourceManager.register [] srcFunctional) "P1" := by
  refine ⟨rfl, by norm_num [srcNonFunctional, srcFunctional], ?_⟩
  norm_num [SourceManager.register, SourceManager.total_supply_lpd,
    SourceManager.functional_sources, SourceManager.by_panchayat, srcNonFunctional, srcFunctional]

/-- C5, amended: `total_supply_lpd` is the sum of `current_yield_lpd` over
exactly the functional sources of the panchayat, and registering a
non-functional source whose `source_id` is not already registered (so that
nothing is overwritten) leaves the total unchanged, whatever its yield. -/
theorem total_supply_counts_functional_only (m : List WaterSource) (p : String) :
    SourceManager.total_supply_lpd m p
      = ((m.filter (fun s => s.panchayat_id == p && s.is_functional)).map
          (fun s => s.current_yield_lpd)).sum ∧
    ∀ s : WaterSource, s.is_functional = false →
      (∀ t ∈ m, t.source_id ≠ s.source_id) →
      SourceManager.total_supply_lpd (SourceManager.register m s) p
        = SourceManager.total_supply_lpd m p := by
  constructor
  · simp [SourceManager.total_supply_lpd, SourceManager.functional_sources,
      SourceManager.by_panchayat, List.filter_filter, Bool.and_comm]
  · intro s hf hfresh
    have hany : m.any (fun t => t.source_id == s.source_id) = false := by
      simp only [List.any_eq_false, beq_iff_eq]
      intro t ht
      exact hfresh t ht
    rw [SourceManager.register, if_neg (by simp [hany])]
    simp [SourceManager.total_supply_lpd, SourceManager.functional_sources,
      SourceManager.by_panchayat, List.filter_append, hf]

/-- C5, witness for the amended claim: a fresh non-functional source with
positive yield leaves an existing one-source total unchanged. -/
theorem total_supply_counts_functional_only_witness :
    SourceManager.total_supply_lpd [srcFunctional] "P1"
        = (([srcFunctional].filter (fun s => s.panchayat_id == "P1" && s.is_functional)).map
            (fun s => s.current_yield_lpd)).sum ∧
    SourceManager.total_supply_lpd
        (SourceManager.register [srcFunctional]
          { source_id := "S2", panchayat_id := "P1", name := "pond", source_type := .pond,
            latitude := 0, longitude := 0, capacity_liters_per_day := 500,
            current_yield_lpd := 70, is_functional := false }) "P1"
      = SourceManager.total_supply_lpd [srcFunctional] "P1" := by
  have h := total_supply_counts_functional_only [srcFunctional] "P1"
  exact ⟨h.1, h.2
    { source_id := "S2", panchayat_id := "P1", name := "pond", source_type := .pond,
      latitude := 0, longitude := 0, capacity_liters_per_day := 500,
      current_yield_lpd := 70, is_functional := false } rfl
    (by intro t ht; simp at ht; subst ht; simp [srcFunctional])⟩

/-! ### C7 -/

/-- C7: `check_rainfall` emits exactly one CRITICAL drought alert at a
deviation of −40 or below, exactly one CRITICAL flood alert at +60 or above,
and nothing in between; and these thresholds differ from `drought_risk`'s
severe band (−60 or below) while `flood_risk` has its high band at +60 with
a moderate band from +30. -/
theorem check_rainfall_thresholds :
    (∀ (c : ℕ) (pid : String) (dev : ℚ),
      (dev ≤ -40 →
        ((AlertEngine.check_rainfall c pid dev).1.map (fun a => (a.level, a.category)))
          = [(AlertLevel.critical, "drought")]) ∧
      (60 ≤ dev →
        ((AlertEngine.check_rainfall c pid dev).1.map (fun a => (a.level, a.category)))
          = [(AlertLevel.critical, "flood")]) ∧
      (-40 < dev → dev < 60 → (AlertEngine.check_rainfall c pid dev).1 = [])) ∧
    (∀ (m : List RainfallRecord) (pid : String) (y : ℤ),
      (RainfallAnalyzer.drought_risk m pid y = "severe_drought" ↔
        RainfallAnalyzer.annual_deviation_pct m pid y ≤ -60) ∧
      (RainfallAnalyzer.flood_risk m pid y = "high_flood_risk" ↔
        60 ≤ RainfallAnalyzer.annual_deviation_pct m pid y) ∧
      (RainfallAnalyzer.flood_risk m pid y = "moderate_flood_risk" ↔
        (30 ≤ RainfallAnalyzer.annual_deviation_pct m pid y ∧
          RainfallAnalyzer.annual_deviation_pct m pid y < 60))) := by
  constructor
  · intro c pid dev
    refine ⟨?_, ?_, ?_⟩
    · intro h
      rw [AlertEngine.check_rainfall, if_pos h]
      rfl
    · intro h
      rw [AlertEngine.check_rainfall, if_neg (by linarith), if_pos (by linarith)]
      rfl
    · intro h1 h2
      rw [AlertEngine.check_rainfall, if_neg (by linarith), if_neg (by linarith)]
  · intro m pid y
    refine ⟨?_, ?_, ?_⟩ <;>
      simp only [RainfallAnalyzer.drought_risk, RainfallAnalyzer.flood_risk] <;>
      split_ifs <;> simp_all

/-- C7, witness: the three alert regimes at deviations −50, +70 and 0, and
the risk bands on a concrete one-record series at −81 % deviation. -/
theorem check_rainfall_thresholds_witness :
    ((AlertEngine.check_rainfall 0 "P" (-50)).1.map (fun a => (a.level, a.category)))
        = [(AlertLevel.critical, "drought")] ∧
    ((AlertEngine.check_rainfall 0 "P" 70).1.map (fun a => (a.level, a.category)))
        = [(AlertLevel.critical, "flood")] ∧
    (AlertEngine.check_rainfall 0 "P" 0).1 = [] := by
  have h := check_rainfall_thresholds
  exact ⟨(h.1 0 "P" (-50)).1 (by norm_num), (h.1 0 "P" 70).2.1 (by norm_num),
    (h.1 0 "P" 0).2.2 (by norm_num) (by norm_num)⟩

/-! ### C8 -/

/-- C8: one `check_groundwater` call emits at most one depth alert (CRITICAL
above 40 m, else WARNING above 20 m, else none) and, independently, one
WARNING trend alert exactly when the record is declining with a rounded
change above 2 m — so zero to two alerts in total. -/
theorem check_groundwater_alert_shape (c : ℕ) (r : GroundwaterLevel) :
    ((AlertEngine.check_groundwater c r).1.map (fun a => (a.level, a.category)))
        = (if 40 < r.depth_meters then [(AlertLevel.critical, "groundwater")]
           else if 20 < r.depth_meters then [(AlertLevel.warning, "groundwater")]
           else [])
          ++ (if r.is_declining = true ∧ 2 < r.change_meters
              then [(AlertLevel.warning, "groundwater_trend")] else []) ∧
    (AlertEngine.check_groundwater c r).1.length ≤ 2 := by
  simp only [AlertEngine.check_groundwater]
  split_ifs <;> simp_all

/-! ### C4 -/

lemma keyLe_trans (a b c : GroundwaterLevel) (h₁ : GroundwaterMonitor.keyLe a b)
    (h₂ : GroundwaterMonitor.keyLe b c) : GroundwaterMonitor.keyLe a c := by
  simp only [GroundwaterMonitor.keyLe, Bool.or_eq_true, Bool.and_eq_true,
    decide_eq_true_eq] at h₁ h₂ ⊢
  rcases h₁ with h₁ | ⟨e₁, s₁⟩ <;> rcases h₂ with h₂ | ⟨e₂, s₂⟩
  · exact Or.inl (lt_trans h₁ h₂)
  · exact Or.inl (by omega)
  · exact Or.inl (by omega)
  · exact Or.inr ⟨by omega, le_trans s₁ s₂⟩

lemma keyLe_total (a b : GroundwaterLevel) :
    GroundwaterMonitor.keyLe a b || GroundwaterMonitor.keyLe b a := by
  simp only [GroundwaterMonitor.keyLe, Bool.or_eq_true, Bool.and_eq_true, decide_eq_true_eq]
  rcases lt_trichotomy a.year b.year with h | h | h
  · tauto
  · rcases le_total a.season.value b.season.value with hs | hs
    · exact Or.inl (Or.inr ⟨h, hs⟩)
    · exact Or.inr (Or.inr ⟨h.symm, hs⟩)
  · tauto

/-- C4: `by_panchayat` returns exactly the panchayat's records (a permutation
of the filter) sorted under the key order `(year, season label text)`, whose
season component is lexical on the label so that
`monsoon < post_monsoon < pre_monsoon < winter`; and `latest` is the last
element of that ordering (`none` when there are no records). -/
theorem by_panchayat_sorted_by_year_and_label (m : List GroundwaterLevel) (pid : String) :
    (GroundwaterMonitor.by_panchayat m pid).Pairwise
        (fun r₁ r₂ => GroundwaterMonitor.keyLe r₁ r₂ = true) ∧
    (GroundwaterMonitor.by_panchayat m pid).Perm
        (m.filter (fun r => r.panchayat_id == pid)) ∧
    (SeasonType.monsoon.value < SeasonType.post_monsoon.value ∧
      SeasonType.post_monsoon.value < SeasonType.pre_monsoon.value ∧
      SeasonType.pre_monsoon.value < SeasonType.winter.value) ∧
    GroundwaterMonitor.latest m pid = (GroundwaterMonitor.by_panchayat m pid).getLast? := by
  refine ⟨?_, ?_, ?_, rfl⟩
  · exact List.sorted_mergeSort keyLe_trans keyLe_total _
  · exact List.mergeSort_perm _ _
  · refine ⟨?_, ?_, ?_⟩ <;> rw [String.lt_iff_toList_lt] <;> decide

/-! ### C3 -/

/-- The behaviour claimed for `declining_trend`, transcribed from the spec:
filter to the panchayat's pre-monsoon records, sort by year ascending, take
the last `years` entries (or all of them if fewer), answer `false` for fewer
than 2 entries, else strict consecutive deepening. Written for comparison
with the code's `GroundwaterMonitor.declining_trend`. -/
def declining_trend_claimed (m : List GroundwaterLevel) (pid : String) (years : ℤ) : Bool :=
  let records := (m.filter (fun r =>
    r.panchayat_id == pid && decide (r.season = SeasonType.pre_monsoon))).mergeSort
    GroundwaterMonitor.yearLe
  let recent := records.drop (records.length - years.toNat)
  if recent.length < 2 then false
  else GroundwaterMonitor.strictlyDeepening recent

/-- Record for the C3 counterexample: pre-monsoon 2019, depth 10 m. -/
def gwA : GroundwaterLevel :=
  { panchayat_id := "P", season := .pre_monsoon, year := 2019, depth_meters := 10 }

/-- Record for the C3 counterexample: pre-monsoon 2020, depth 12 m. -/
def gwB : GroundwaterLevel :=
  { panchayat_id := "P", season := .pre_monsoon, year := 2020, depth_meters := 12 }

/-- C3 fails as literally stated at `years = 0`: the claim's reading (take
the last 0 entries, and fewer than 2 entries means `false`) demands `false`,
but the code's slice `records[-0:]` is the whole list, so two strictly
deepening pre-monsoon records make it answer `true`. -/
theorem declining_trend_years_zero_counterexample :
    GroundwaterMonitor.declining_trend [gwA, gwB] "P" 0 = true ∧
    declining_trend_claimed [gwA, gwB] "P" 0 = false := by
  have hfilter : [gwA, gwB].filter (fun r =>
      r.panchayat_id == "P" && decide (r.season = SeasonType.pre_monsoon)) = [gwA, gwB] := rfl
  have hsorted : ([gwA, gwB].filter (fun r =>
      r.panchayat_id == "P" && decide (r.season = SeasonType.pre_monsoon))).mergeSort
      GroundwaterMonitor.yearLe = [gwA, gwB] := by
    rw [hfilter]
    apply List.mergeSort_of_sorted
    simp [List.pairwise_cons, GroundwaterMonitor.yearLe, gwA, gwB]
  constructor
  · simp only [GroundwaterMonitor.declining_trend, hsorted]
    norm_num [GroundwaterMonitor.sliceFromNegIndex, GroundwaterMonitor.strictlyDeepening,
      gwA, gwB]
  · simp only [declining_trend_claimed, hsorted]
    norm_num

/-- C3, amended: for every `years ≥ 1` (which covers the default `years = 3`
and every call the claim's wording envisages), `declining_trend` behaves
exactly as claimed: pre-monsoon records sorted by year, last `years` entries
(or all if fewer), `false` below 2 entries, else `true` iff each entry is
strictly deeper than its predecessor. For `years ≤ 0` the Python slice
`records[-years:]` no longer means "the last `years` entries", and the claim
fails (see the counterexample). -/
theorem declining_trend_matches_claim_for_positive_years
    (m : List GroundwaterLevel) (pid : String) (years : ℤ) (hy : 1 ≤ years) :
    GroundwaterMonitor.declining_trend m pid years = declining_trend_claimed m pid years := by
  have key : ∀ l : List GroundwaterLevel,
      (if (l.length : ℤ) ≥ years then GroundwaterMonitor.sliceFromNegIndex l years else l)
        = l.drop (l.length - years.toNat) := by
    intro l
    unfold GroundwaterMonitor.sliceFromNegIndex
    split_ifs with h1 h2
    · rfl
    · omega
    · have h0 : l.length - years.toNat = 0 := by omega
      rw [h0, List.drop_zero]
  simp only [GroundwaterMonitor.declining_trend, declining_trend_claimed, key]

/-- C3, witness: the amended statement applied at the default `years = 3` on
the two-record monitor. -/
theorem declining_trend_matches_claim_witness :
    GroundwaterMonitor.declining_trend [gwA, gwB] "P" 3
      = declining_trend_claimed [gwA, gwB] "P" 3 :=
  declining_trend_matches_claim_for_positive_years [gwA, gwB] "P" 3 (by norm_num)

/-! ### C9 -/

lemma digitChar_toNat (d : ℕ) (h : d < 10) : (digitChar d).toNat = 48 + d := by
  interval_cases d <;> rfl

lemma foldl_natDecimal (n : ℕ) : ∀ a : ℕ,
    (natDecimal n).foldl (fun a c => 10 * a + (c.toNat - 48)) a
      = a * 10 ^ (natDecimal n).length + n := by
  induction n using Nat.strong_induction_on with
  | _ n ih =>
    intro a
    rw [natDecimal]
    split_ifs with h
    · simp [List.foldl, digitChar_toNat n h]
      omega
    · rw [List.foldl_append, ih (n / 10) (Nat.div_lt_self (by omega) (by omega)) a]
      simp [List.foldl, digitChar_toNat (n % 10) (Nat.mod_lt _ (by omega))]
      have hdm : 10 * (n / 10) + n % 10 = n := by omega
      rw [pow_succ, Nat.mul_add, Nat.add_assoc, hdm]
      ring

lemma digitsVal_replicate_zero_append (k : ℕ) (l : List Char) :
    digitsVal (List.replicate k '0' ++ l) = digitsVal l := by
  induction k with
  | zero => rfl
  | succ k ih =>
    have h0 : (fun a c => 10 * a + (Char.toNat c - 48)) 0 '0' = 0 := rfl
    simp only [List.replicate_succ, List.cons_append, digitsVal, List.foldl_cons, h0] at ih ⊢
    exact ih

/-- Reading the digits after `"ALERT-"` back out of `fmtId n` recovers `n`. -/
lemma digitsVal_fmtId (n : ℕ) : digitsVal ((fmtId n).data.drop 6) = n := by
  have h1 : (fmtId n).data
      = "ALERT-".data ++ (List.replicate (4 - (natDecimal n).length) '0' ++ natDecimal n) := by
    simp [fmtId]
  rw [h1, List.drop_left' (by rfl), digitsVal_replicate_zero_append]
  have := foldl_natDecimal n 0
  simpa [digitsVal] using this

/-- The alerts of one check call carry the consecutive sequence numbers
`c+1, …, c'` where `c` and `c'` are the counter before and after the call. -/
lemma runCmd_seqNums (c : ℕ) (cmd : AlertEngine.Command) :
    ((AlertEngine.runCmd c cmd).1.map seqNum
        = List.range' (c + 1) ((AlertEngine.runCmd c cmd).2 - c))
      ∧ c ≤ (AlertEngine.runCmd c cmd).2 := by
  have s0 : ∀ k : ℕ, k - k = 0 := fun k => by omega
  have s1 : ∀ k : ℕ, k + 1 - k = 1 := fun k => by omega
  have s2 : ∀ k : ℕ, k + 1 + 1 - k = 2 := fun k => by omega
  cases cmd with
  | quality r =>
    simp only [AlertEngine.runCmd, AlertEngine.check_quality]
    split_ifs <;> simp [seqNum, digitsVal_fmtId, List.range', s0, s1]
  | groundwater g =>
    simp only [AlertEngine.runCmd, AlertEngine.check_groundwater]
    split_ifs <;> simp [seqNum, digitsVal_fmtId, List.range', s0, s1, s2] <;> omega
  | supply population supply =>
    simp only [AlertEngine.runCmd, AlertEngine.check_supply]
    split_ifs <;> simp [seqNum, digitsVal_fmtId, List.range', s0, s1]
  | rainfall pid dev =>
    simp only [AlertEngine.runCmd, AlertEngine.check_rainfall]
    split_ifs <;> simp [seqNum, digitsVal_fmtId, List.range', s0, s1]

/-- Across a whole run the emitted alerts carry the consecutive sequence
numbers `c+1, …, c'`. -/
lemma run_seqNums (cmds : List AlertEngine.Command) : ∀ c : ℕ,
    ((AlertEngine.run c cmds).1.map seqNum
        = List.range' (c + 1) ((AlertEngine.run c cmds).2 - c))
      ∧ c ≤ (AlertEngine.run c cmds).2 := by
  induction cmds with
  | nil =>
    intro c
    simp [AlertEngine.run]
  | cons cmd rest ih =>
    intro c
    obtain ⟨h1, h1c⟩ := runCmd_seqNums c cmd
    obtain ⟨h2, h2c⟩ := ih (AlertEngine.runCmd c cmd).2
    simp only [AlertEngine.run]
    constructor
    · rw [List.map_append, h1, h2]
      have e1 : (AlertEngine.runCmd c cmd).2 + 1
          = (c + 1) + ((AlertEngine.runCmd c cmd).2 - c) := by omega
      have e2 : ((AlertEngine.run (AlertEngine.runCmd c cmd).2 rest).2
              - (AlertEngine.runCmd c cmd).2)
            + ((AlertEngine.runCmd c cmd).2 - c)
          = (AlertEngine.run (AlertEngine.runCmd c cmd).2 rest).2 - c := by omega
      rw [e1, List.range'_append_1, e2]
    · omega

/-- C9: across any sequence of `check_quality`, `check_groundwater`,
`check_supply` and `check_rainfall` calls on one engine instance (counter
starting at 0), the sequence numbers of the emitted alert identifiers are
strictly increasing in emission order, and the identifier strings never
repeat. -/
theorem alert_ids_strictly_increasing_and_unique (cmds : List AlertEngine.Command) :
    ((AlertEngine.run 0 cmds).1.map seqNum).Chain' (· < ·) ∧
    ((AlertEngine.run 0 cmds).1.map (fun a => a.alert_id)).Nodup := by
  obtain ⟨h, -⟩ := run_seqNums cmds 0
  refine ⟨?_, ?_⟩
  · rw [h]
    exact (List.pairwise_lt_range' _ _).chain'
  · have hnd : ((AlertEngine.run 0 cmds).1.map seqNum).Nodup := by
      rw [h]
      exact List.nodup_range' _ _
    have hcomp : ((AlertEngine.run 0 cmds).1.map (fun a => a.alert_id)).map
          (fun s => digitsVal (s.data.drop 6))
        = (AlertEngine.run 0 cmds).1.map seqNum := by
      rw [List.map_map]
      rfl
    exact List.Nodup.of_map _ (hcomp ▸ hnd)

end Jaldrishti
